import Mathlib

/-
Shallow embedding of the core decision engine of the `popopo` market-making
repository: the inventory ledger (`src/inventory/inventory_manager.py`), the
risk gate (`src/risk/risk_manager.py`) and the quote engine
(`src/market_maker/quote_engine.py`).  Python floats are modelled as exact
rationals (ℚ); mutation of `self` is modelled by explicit state passing.
-/

namespace Popopo

/-- Embeds the `Inventory` dataclass of `src/inventory/inventory_manager.py`:
`yes_position`, `no_position` and the stored `net_exposure_shares` field. -/
structure Inventory where
  yes_position : ℚ
  no_position : ℚ
  net_exposure_shares : ℚ
deriving Repr, DecidableEq

/-- Embeds `Inventory.update`: add the two deltas and recompute
`net_exposure_shares = yes_position - no_position`. -/
def Inventory.update (inv : Inventory) (yes_delta no_delta : ℚ) : Inventory :=
  let y := inv.yes_position + yes_delta
  let n := inv.no_position + no_delta
  { yes_position := y, no_position := n, net_exposure_shares := y - n }

/-- Embeds `Inventory.get_skew`: `abs(net) / (abs(yes) + abs(no))`, with `0`
returned when the denominator is `0`. -/
def Inventory.get_skew (inv : Inventory) : ℚ :=
  let total_shares := |inv.yes_position| + |inv.no_position|
  if total_shares = 0 then 0 else |inv.net_exposure_shares| / total_shares

/-- Embeds `Inventory.is_balanced`. -/
def Inventory.is_balanced (inv : Inventory) (max_skew : ℚ) : Bool :=
  decide (inv.get_skew ≤ max_skew)

/-- Embeds the `InventoryManager` class.  Its `__init__` derives the share
bounds from the USD bounds (`usd * 2.0`); `InventoryManager.init` below mirrors
that constructor. -/
structure InventoryManager where
  max_exposure_usd : ℚ
  min_exposure_usd : ℚ
  target_balance : ℚ
  inventory : Inventory
  max_exposure_shares : ℚ
  min_exposure_shares : ℚ
deriving Repr, DecidableEq

/-- Embeds `InventoryManager.__init__(max_exposure_usd, min_exposure_usd,
target_balance)`: a fresh zero inventory and share bounds `usd * 2.0`. -/
def InventoryManager.init (max_usd min_usd target : ℚ) : InventoryManager :=
  { max_exposure_usd := max_usd, min_exposure_usd := min_usd,
    target_balance := target, inventory := ⟨0, 0, 0⟩,
    max_exposure_shares := max_usd * 2, min_exposure_shares := min_usd * 2 }

/-- Embeds `InventoryManager.update_inventory`. -/
def InventoryManager.update_inventory (m : InventoryManager)
    (yes_delta no_delta : ℚ) : InventoryManager :=
  { m with inventory := m.inventory.update yes_delta no_delta }

/-- Embeds `InventoryManager.record_minting`: both positions grow by
`amount_shares` and `net_exposure_shares` is recomputed as the difference. -/
def InventoryManager.record_minting (m : InventoryManager)
    (amount_shares : ℚ) : InventoryManager :=
  let y := m.inventory.yes_position + amount_shares
  let n := m.inventory.no_position + amount_shares
  { m with inventory := { yes_position := y, no_position := n,
                          net_exposure_shares := y - n } }

/-- Modelled from the spec: `syncFromChain(yesBalance, noBalance)` is described
as an authoritative overwrite of both positions with `netExposure` recomputed,
never independently stored.  No such function exists under `src/`; this
definition follows the spec's words for claim C8. -/
def InventoryManager.sync_from_chain (m : InventoryManager)
    (yes_balance no_balance : ℚ) : InventoryManager :=
  { m with inventory := { yes_position := yes_balance, no_position := no_balance,
                          net_exposure_shares := yes_balance - no_balance } }

/-- Embeds `InventoryManager.can_quote_yes`:
`net_exposure_shares + size ≤ max_exposure_shares`. -/
def InventoryManager.can_quote_yes (m : InventoryManager) (size_shares : ℚ) : Bool :=
  decide (m.inventory.net_exposure_shares + size_shares ≤ m.max_exposure_shares)

/-- Embeds `InventoryManager.can_quote_no`:
`net_exposure_shares - size ≥ min_exposure_shares`. -/
def InventoryManager.can_quote_no (m : InventoryManager) (size_shares : ℚ) : Bool :=
  decide (m.min_exposure_shares ≤ m.inventory.net_exposure_shares - size_shares)

/-- Embeds `InventoryManager.get_quote_size_yes`: halve the base size when the
ledger is already skewed past `target_balance` toward YES. -/
def InventoryManager.get_quote_size_yes (m : InventoryManager) (base_size_shares : ℚ) : ℚ :=
  if m.target_balance < m.inventory.net_exposure_shares then base_size_shares * (1/2)
  else base_size_shares

/-- Embeds `InventoryManager.get_quote_size_no`. -/
def InventoryManager.get_quote_size_no (m : InventoryManager) (base_size_shares : ℚ) : ℚ :=
  if m.inventory.net_exposure_shares < m.target_balance then base_size_shares * (1/2)
  else base_size_shares

/-- The configuration fields of `src/config.py` that the risk gate and quote
engine read. -/
structure Settings where
  default_size : ℚ
  max_allowed_slippage : ℚ
  emergency_skew_limit : ℚ
deriving Repr, DecidableEq

/-- One price level of an order book; `validate_obi` reads only `size`. -/
structure Level where
  price : ℚ
  size : ℚ
deriving Repr, DecidableEq

/-- An order-book snapshot: the `{"bids": [...], "asks": [...]}` dict consumed
by `RiskManager.validate_obi`. -/
structure Orderbook where
  bids : List Level
  asks : List Level
deriving Repr, DecidableEq

/-- Embeds the `RiskManager` class state: settings, the inventory manager and
the `is_halted` circuit-breaker flag. -/
structure RiskManager where
  settings : Settings
  inventory_manager : InventoryManager
  is_halted : Bool
deriving Repr, DecidableEq

/-- Sum of the sizes of the top three levels, the `sum(x['size'] for x in
levels[:3])` expressions in `validate_obi`. -/
def topVolume (levels : List Level) : ℚ :=
  ((levels.take 3).map Level.size).sum

/-- Embeds `RiskManager.validate_obi` (it reads no `self` state): empty side or
zero top-of-book volume returns `(True, "OK")`; otherwise the top-3 imbalance
`obi` rejects above `0.8` or below `-0.8`. -/
def validate_obi (orderbook : Orderbook) : Bool × String :=
  if orderbook.bids.isEmpty || orderbook.asks.isEmpty then (true, "OK")
  else
    let bid_vol := topVolume orderbook.bids
    let ask_vol := topVolume orderbook.asks
    if bid_vol + ask_vol = 0 then (true, "OK")
    else
      let obi := (bid_vol - ask_vol) / (bid_vol + ask_vol)
      if 4/5 < obi then (false, "OBI_HIGH_UPWARD_RISK")
      else if obi < -(4/5) then (false, "OBI_HIGH_DOWNWARD_RISK")
      else (true, "OK")

/-- Embeds `RiskManager.get_inventory_status`. -/
def RiskManager.get_inventory_status (r : RiskManager) : String :=
  let skew := r.inventory_manager.inventory.get_skew
  if r.settings.emergency_skew_limit ≤ skew then "EMERGENCY"
  else if 3/10 ≤ skew then "WARNING"
  else "HEALTHY"

/-- Embeds `RiskManager.validate_order(side, size_shares, orderbook)`: halt
check, then OBI check, then the share-exposure bound (`can_quote_yes` for BUY,
`can_quote_no` otherwise), then the emergency-skew check. -/
def RiskManager.validate_order (r : RiskManager) (side : String)
    (size_shares : ℚ) (orderbook : Orderbook) : Bool × String :=
  if r.is_halted then (false, "TRADING_HALTED_BY_CIRCUIT_BREAKER")
  else
    let obiRes := validate_obi orderbook
    if obiRes.1 = false then (false, obiRes.2)
    else if side = "BUY" then
      if r.inventory_manager.can_quote_yes size_shares = false then
        (false, "MAX_SHARE_EXPOSURE_EXCEEDED")
      else if r.get_inventory_status = "EMERGENCY" then (false, "INVENTORY_CRITICAL_SKEW")
      else (true, "OK")
    else
      if r.inventory_manager.can_quote_no size_shares = false then
        (false, "MAX_SHARE_EXPOSURE_EXCEEDED")
      else if r.get_inventory_status = "EMERGENCY" then (false, "INVENTORY_CRITICAL_SKEW")
      else (true, "OK")

/-- Embeds `RiskManager.validate_execution_price(expected, actual, side)`.
The mutated `is_halted` flag is returned as part of the new state.  For BUY the
adverse direction is `actual > expected + allowed`; for SELL it is
`actual < expected - allowed`; any other side is never flagged. -/
def RiskManager.validate_execution_price (r : RiskManager)
    (expected_price actual_price : ℚ) (side : String) : Bool × RiskManager :=
  let allowed_slippage := r.settings.max_allowed_slippage
  let is_bad_execution :=
    if side = "BUY" then decide (expected_price + allowed_slippage < actual_price)
    else if side = "SELL" then decide (actual_price < expected_price - allowed_slippage)
    else false
  if is_bad_execution then (false, { r with is_halted := true })
  else (true, r)

/-- Embeds `RiskManager.reset_halt`. -/
def RiskManager.reset_halt (r : RiskManager) : RiskManager :=
  { r with is_halted := false }

/-- Models Python's `round(x)` on an exact rational: round half to even
(banker's rounding), which is what `round` uses on floats. -/
def pythonRound (x : ℚ) : ℤ :=
  let f := ⌊x⌋
  let r := x - (f : ℚ)
  if r < 1/2 then f
  else if 1/2 < r then f + 1
  else if f % 2 = 0 then f else f + 1

/-- Fuel-driven base-10 logarithm on ℕ (structural recursion so that concrete
values reduce in the kernel): `natLog10Aux fuel n = Nat.log 10 n` when
`n ≤ fuel`. -/
def natLog10Aux : ℕ → ℕ → ℕ
  | 0, _ => 0
  | fuel + 1, n => if n < 10 then 0 else natLog10Aux fuel (n / 10) + 1

/-- Floor of the base-10 logarithm of a natural number. -/
def natLog10 (n : ℕ) : ℕ :=
  natLog10Aux n n

/-- Models `int(-math.log10(tick_size))` for `tick_size > 0` over exact
rationals: `int` truncates toward zero, so the value is
`⌊log10 (1/tick)⌋ = natLog10 ⌊1/tick⌋` when `tick ≤ 1` and
`-⌊log10 tick⌋ = -(natLog10 ⌊tick⌋)` when `tick > 1`. -/
def tickPrecision (tick_size : ℚ) : ℤ :=
  if tick_size ≤ 1 then (natLog10 (⌊1 / tick_size⌋).toNat : ℤ)
  else -(natLog10 (⌊tick_size⌋).toNat : ℤ)

/-- Models Python's `round(x, ndigits)` on an exact rational. -/
def roundToDigits (ndigits : ℤ) (x : ℚ) : ℚ :=
  (pythonRound (x * (10 : ℚ) ^ ndigits) : ℚ) / (10 : ℚ) ^ ndigits

/-- Embeds `QuoteEngine.round_to_tick`: `round(price, 2)` for non-positive
`tick_size`, otherwise `round(math.floor(price / tick_size) * tick_size,
precision)` with `precision = int(-math.log10(tick_size))`. -/
def round_to_tick (price tick_size : ℚ) : ℚ :=
  if tick_size ≤ 0 then roundToDigits 2 price
  else roundToDigits (tickPrecision tick_size) ((⌊price / tick_size⌋ : ℚ) * tick_size)

/-- Embeds `QuoteEngine.calculate_mid_price`. -/
def calculate_mid_price (best_bid best_ask : ℚ) : ℚ :=
  if best_bid ≤ 0 ∨ best_ask ≤ 0 then 0 else (best_bid + best_ask) / 2

/-- Embeds the `Quote` dataclass of `src/market_maker/quote_engine.py`. -/
structure Quote where
  side : String
  price : ℚ
  size : ℚ
  market : String
  token_id : String
deriving Repr, DecidableEq

/-- Embeds the `QuoteEngine` class state. -/
structure QuoteEngine where
  settings : Settings
  inventory_manager : InventoryManager
deriving Repr, DecidableEq

/-- Embeds `QuoteEngine.generate_quotes`: the two-sided BUY-quoting strategy of
the source.  Mid prices from both books, an early `(None, None)` exit only when
both mids are `0`, a volatility-scaled spread, a 90% margin, inventory price
skewing, tick rounding, and two independently guarded BUY quotes, each emitted
only when its mid is positive, its exposure check passes and its price lies
strictly between `0.01` and `0.99`. -/
def QuoteEngine.generate_quotes (e : QuoteEngine) (market_id : String)
    (yes_best_bid yes_best_ask no_best_bid no_best_ask : ℚ)
    (yes_token_id no_token_id : String)
    (spread_cents min_size_shares tick_size volatility_1h : ℚ)
    (user_input_shares : Option ℚ) : Option Quote × Option Quote :=
  let size := user_input_shares.getD e.settings.default_size
  let final_shares := max size min_size_shares
  let yes_mid := calculate_mid_price yes_best_bid yes_best_ask
  let no_mid := calculate_mid_price no_best_bid no_best_ask
  if yes_mid = 0 ∧ no_mid = 0 then (none, none)
  else
    let volatility_multiplier : ℚ :=
      if volatility_1h < 45/1000 then 1
      else max 1 (min 3 (1 + volatility_1h * 100))
    let dynamic_spread_usd := spread_cents * volatility_multiplier / 100
    let margin_usd := dynamic_spread_usd * (9/10)
    let inventory_diff := e.inventory_manager.inventory.net_exposure_shares
    let skew_adjustment := inventory_diff / 1000 * (5/1000)
    let yes_skewed_mid := yes_mid - skew_adjustment
    let no_skewed_mid := no_mid + skew_adjustment
    let yes_bid_price := round_to_tick (yes_skewed_mid - margin_usd) tick_size
    let no_bid_price := round_to_tick (no_skewed_mid - margin_usd) tick_size
    let yes_shares := e.inventory_manager.get_quote_size_yes final_shares
    let no_shares := e.inventory_manager.get_quote_size_no final_shares
    let yes_quote : Option Quote :=
      if 0 < yes_mid ∧ e.inventory_manager.can_quote_yes yes_shares = true ∧
          1/100 < yes_bid_price ∧ yes_bid_price < 99/100 then
        some ⟨"BUY", yes_bid_price, yes_shares, market_id, yes_token_id⟩
      else none
    let no_quote : Option Quote :=
      if 0 < no_mid ∧ e.inventory_manager.can_quote_no no_shares = true ∧
          1/100 < no_bid_price ∧ no_bid_price < 99/100 then
        some ⟨"BUY", no_bid_price, no_shares, market_id, no_token_id⟩
      else none
    (yes_quote, no_quote)

/-- One inventory-ledger operation, for claim C8's quantification over
sequences of operations. -/
inductive InvOp where
  | update (yes_delta no_delta : ℚ)
  | recordMint (amount_shares : ℚ)
  | syncFromChain (yes_balance no_balance : ℚ)
deriving Repr, DecidableEq

/-- Applies one ledger operation to an `InventoryManager`. -/
def applyInvOp (m : InventoryManager) : InvOp → InventoryManager
  | .update yd nd => m.update_inventory yd nd
  | .recordMint a => m.record_minting a
  | .syncFromChain yb nb => m.sync_from_chain yb nb

/-- The ledger invariant of claim C8: the stored `net_exposure_shares` equals
`yes_position - no_position`. -/
def netExposureInvariant (m : InventoryManager) : Prop :=
  m.inventory.net_exposure_shares =
    m.inventory.yes_position - m.inventory.no_position

instance (m : InventoryManager) : Decidable (netExposureInvariant m) := by
  unfold netExposureInvariant; infer_instance

/-! Helper lemmas about the tick-rounding arithmetic. -/

lemma pythonRound_intCast (k : ℤ) : pythonRound (k : ℚ) = k := by
  unfold pythonRound
  norm_num

lemma natLog10Aux_eq (fuel : ℕ) : ∀ n, n ≤ fuel → natLog10Aux fuel n = Nat.log 10 n := by
  induction fuel with
  | zero =>
      intro n h
      have hn : n = 0 := Nat.le_zero.mp h
      subst hn
      simp [natLog10Aux]
  | succ fuel ih =>
      intro n h
      unfold natLog10Aux
      by_cases hn : n < 10
      · rw [if_pos hn, Nat.log_of_lt hn]
      · rw [if_neg hn]
        push_neg at hn
        have hpos : 0 < n := by omega
        have hlt : n / 10 < n := Nat.div_lt_self hpos (by norm_num)
        rw [ih (n / 10) (by omega), Nat.log_of_one_lt_of_le (by norm_num) hn]

lemma natLog10_eq_log (n : ℕ) : natLog10 n = Nat.log 10 n :=
  natLog10Aux_eq n n le_rfl

lemma natLog10_pow (p : ℕ) : natLog10 (10 ^ p) = p := by
  rw [natLog10_eq_log, Nat.log_pow (by norm_num)]

lemma floor_pow10 (p : ℕ) : ⌊((10 : ℚ) ^ p)⌋ = (10 : ℤ) ^ p := by
  rw [show ((10 : ℚ) ^ p) = (((10 : ℤ) ^ p : ℤ) : ℚ) by push_cast; ring]
  exact Int.floor_intCast _

lemma tickPrecision_pow (p : ℕ) : tickPrecision (1 / (10 : ℚ) ^ p) = p := by
  unfold tickPrecision
  have hpow : (0 : ℚ) < (10 : ℚ) ^ p := by positivity
  have h1 : (1 : ℚ) ≤ (10 : ℚ) ^ p := by
    calc (1 : ℚ) = 1 ^ p := (one_pow p).symm
    _ ≤ (10 : ℚ) ^ p := by
      apply pow_le_pow_left₀ (by norm_num) (by norm_num)
  rw [if_pos (by rw [div_le_one hpow]; exact h1), one_div_one_div, floor_pow10]
  have h2 : ((10 : ℤ) ^ p).toNat = 10 ^ p := by
    rw [show ((10 : ℤ) ^ p) = ((10 ^ p : ℕ) : ℤ) by push_cast; ring, Int.toNat_natCast]
  rw [h2, natLog10_pow]

lemma round_to_tick_pow_eq (price : ℚ) (p : ℕ) :
    round_to_tick price (1 / (10 : ℚ) ^ p) =
      (⌊price * (10 : ℚ) ^ p⌋ : ℚ) / (10 : ℚ) ^ p := by
  unfold round_to_tick
  have hpow : (0 : ℚ) < (10 : ℚ) ^ p := by positivity
  rw [if_neg (by push_neg; positivity), tickPrecision_pow, div_div_eq_mul_div, div_one]
  unfold roundToDigits
  rw [zpow_natCast]
  have hmul : (⌊price * (10 : ℚ) ^ p⌋ : ℚ) * (1 / (10 : ℚ) ^ p) * (10 : ℚ) ^ p =
      (⌊price * (10 : ℚ) ^ p⌋ : ℚ) := by
    field_simp
  rw [hmul, pythonRound_intCast]

/-- Claim C3 (amended): for every price and every power-of-ten tick
`1/10^p`, `round_to_tick` floors rather than ceils: the result is `≤ price`,
lies strictly within one tick below `price`, and is an integer multiple of the
tick. -/
theorem round_to_tick_floors (price : ℚ) (p : ℕ) :
    round_to_tick price (1 / (10 : ℚ) ^ p) ≤ price ∧
    price - 1 / (10 : ℚ) ^ p < round_to_tick price (1 / (10 : ℚ) ^ p) ∧
    ∃ k : ℤ, round_to_tick price (1 / (10 : ℚ) ^ p) = (k : ℚ) * (1 / (10 : ℚ) ^ p) := by
  have hpow : (0 : ℚ) < (10 : ℚ) ^ p := by positivity
  rw [round_to_tick_pow_eq]
  refine ⟨?_, ?_, ⟨⌊price * (10 : ℚ) ^ p⌋, by field_simp⟩⟩
  · rw [div_le_iff₀ hpow]
    exact Int.floor_le _
  · rw [lt_div_iff₀ hpow, sub_mul, div_mul_cancel₀ _ (ne_of_gt hpow)]
    exact Int.sub_one_lt_floor _

/-- Claim C3 (counterexample): at `price = 0.015 > 0` and `tick = 0.01 > 0`
the function returns `0.01`, which is strictly below the input price, refuting
the claim that the result is always `≥ price`. -/
theorem round_to_tick_below_price :
    (0 : ℚ) < 3 / 200 ∧ (0 : ℚ) < 1 / 100 ∧
      round_to_tick (3 / 200) (1 / 100) = 1 / 100 ∧
      round_to_tick (3 / 200) (1 / 100) < 3 / 200 := by
  have h : round_to_tick (3 / 200) (1 / (10 : ℚ) ^ 2) =
      (⌊(3 / 200 : ℚ) * (10 : ℚ) ^ 2⌋ : ℚ) / (10 : ℚ) ^ 2 :=
    round_to_tick_pow_eq (3 / 200) 2
  have hfloor : ⌊(3 / 200 : ℚ) * (10 : ℚ) ^ 2⌋ = 1 := by
    rw [show (3 / 200 : ℚ) * (10 : ℚ) ^ 2 = 3 / 2 by norm_num]
    rw [Int.floor_eq_iff]
    norm_num
  rw [hfloor] at h
  norm_num at h
  exact ⟨by norm_num, by norm_num, h, by rw [h]; norm_num⟩

/-! Ledger invariant (claim C8). -/

lemma applyInvOp_invariant (m : InventoryManager) (op : InvOp) :
    netExposureInvariant (applyInvOp m op) := by
  cases op <;>
    simp [applyInvOp, InventoryManager.update_inventory, Inventory.update,
      InventoryManager.record_minting, InventoryManager.sync_from_chain,
      netExposureInvariant]

/-- Claim C8 (confirmed): along every sequence of ledger operations
(`update`, `recordMint`, `syncFromChain`) from any starting state, after every
operation the stored `net_exposure_shares` equals
`yes_position - no_position`. -/
theorem netExposure_recomputed_after_each_op (m : InventoryManager)
    (ops : List InvOp) (i : ℕ) (h : i < ops.length) :
    netExposureInvariant (List.foldl applyInvOp m (ops.take (i + 1))) := by
  have htake : ops.take (i + 1) = ops.take i ++ [ops[i]] := by
    rw [List.take_succ, List.getElem?_eq_getElem h]
    rfl
  rw [htake, List.foldl_append, List.foldl_cons, List.foldl_nil]
  exact applyInvOp_invariant _ _

/-- Claim C8 (witness): a concrete three-operation run (mint, a one-sided
fill, an on-chain sync) whose third post-state satisfies the invariant. -/
theorem netExposure_recomputed_witness :
    netExposureInvariant (List.foldl applyInvOp (InventoryManager.init 1000 (-1000) 0)
      (List.take (2 + 1)
        [InvOp.recordMint 100, InvOp.update 0 (-40), InvOp.syncFromChain 7 3])) :=
  netExposure_recomputed_after_each_op (InventoryManager.init 1000 (-1000) 0)
    [InvOp.recordMint 100, InvOp.update 0 (-40), InvOp.syncFromChain 7 3] 2
    (by norm_num)

/-! Skew bounds (claim C9). -/

/-- Claim C9 (confirmed): on every inventory state whose stored exposure is
the recomputed difference (which claim C8 shows holds after every ledger
operation), `get_skew` lies in `[0, 1]`, and it is exactly `0` when both
positions are `0`. -/
theorem get_skew_in_unit_interval (inv : Inventory)
    (h : inv.net_exposure_shares = inv.yes_position - inv.no_position) :
    0 ≤ inv.get_skew ∧ inv.get_skew ≤ 1 ∧
      (inv.yes_position = 0 ∧ inv.no_position = 0 → inv.get_skew = 0) := by
  simp only [Inventory.get_skew]
  by_cases htot : |inv.yes_position| + |inv.no_position| = 0
  · rw [if_pos htot]
    exact ⟨le_refl 0, by norm_num, fun _ => rfl⟩
  · rw [if_neg htot]
    have hpos : 0 < |inv.yes_position| + |inv.no_position| :=
      lt_of_le_of_ne (by positivity) (Ne.symm htot)
    refine ⟨div_nonneg (abs_nonneg _) (le_of_lt hpos), ?_, ?_⟩
    · rw [div_le_one hpos, h]
      exact abs_sub _ _
    · rintro ⟨h1, h2⟩
      exact absurd (by rw [h1, h2]; norm_num) htot

/-- Claim C9 (witness): the zero inventory state satisfies the invariant
hypothesis and realizes skew `0`, inside `[0, 1]`. -/
theorem get_skew_in_unit_interval_witness :
    0 ≤ Inventory.get_skew ⟨0, 0, 0⟩ ∧ Inventory.get_skew ⟨0, 0, 0⟩ ≤ 1 ∧
      ((0 : ℚ) = 0 ∧ (0 : ℚ) = 0 → Inventory.get_skew ⟨0, 0, 0⟩ = 0) :=
  get_skew_in_unit_interval ⟨0, 0, 0⟩ (by norm_num)

/-! Risk gate: halt precedence (claim C7). -/

/-- Claim C7 (confirmed): whenever `is_halted` is set, `validate_order`
rejects with the trading-halted reason, for every side, size and order book —
no other rule is consulted. -/
theorem validate_order_halted_first (r : RiskManager) (side : String)
    (size_shares : ℚ) (orderbook : Orderbook) (h : r.is_halted = true) :
    r.validate_order side size_shares orderbook =
      (false, "TRADING_HALTED_BY_CIRCUIT_BREAKER") := by
  simp [RiskManager.validate_order, h]

/-- Claim C7 (witness): a concrete halted gate rejects a SELL order on an
empty book with the trading-halted reason. -/
theorem validate_order_halted_first_witness :
    RiskManager.validate_order
      ⟨⟨100, 1/100, 7/10⟩, InventoryManager.init 1000 (-1000) 0, true⟩
      "SELL" 10 ⟨[], []⟩ = (false, "TRADING_HALTED_BY_CIRCUIT_BREAKER") :=
  validate_order_halted_first _ "SELL" 10 ⟨[], []⟩ rfl

/-! Risk gate: no BUY prohibition (claim C1). -/

/-- Claim C1 (counterexample): a BUY order on a healthy gate with a balanced
book is accepted with `(True, "OK")` — there is no `BUY_ORDERS_PROHIBITED`
rule anywhere in `validate_order`. -/
theorem validate_order_accepts_buy :
    RiskManager.validate_order
      ⟨⟨100, 1/100, 7/10⟩, InventoryManager.init 1000 (-1000) 0, false⟩
      "BUY" 10 ⟨[⟨49/100, 10⟩], [⟨51/100, 10⟩]⟩ = (true, "OK") := by
  norm_num [RiskManager.validate_order, validate_obi, topVolume,
    InventoryManager.init, InventoryManager.can_quote_yes,
    RiskManager.get_inventory_status, Inventory.get_skew]
  decide

/-- Claim C1 (amended): `validate_order` never rejects an order because its
side is BUY; a BUY order is accepted exactly when the gate is not halted, the
OBI screen passes, the projected YES exposure stays within bounds and the
inventory skew is not at the emergency level. -/
theorem validate_order_buy_not_prohibited (r : RiskManager) (size_shares : ℚ)
    (orderbook : Orderbook) :
    r.validate_order "BUY" size_shares orderbook = (true, "OK") ↔
      (r.is_halted = false ∧ (validate_obi orderbook).1 = true ∧
        r.inventory_manager.can_quote_yes size_shares = true ∧
        r.get_inventory_status ≠ "EMERGENCY") := by
  rcases hob : validate_obi orderbook with ⟨ov, orea⟩
  by_cases h1 : r.is_halted = true <;>
    by_cases h3 : r.inventory_manager.can_quote_yes size_shares = true <;>
      by_cases h4 : r.get_inventory_status = "EMERGENCY" <;>
        cases ov <;>
          simp_all [RiskManager.validate_order]

/-! Risk gate: slippage circuit breaker is directional (claim C5). -/

/-- Claim C5 (amended): the breaker takes the side into account.  For SELL
fills, `actual < expected - max_allowed_slippage` halts and returns false,
and otherwise the state is unchanged and the call returns true; for BUY fills
the adverse direction is `actual > expected + max_allowed_slippage`. -/
theorem validate_execution_price_directional (r : RiskManager)
    (expected actual : ℚ) :
    (actual < expected - r.settings.max_allowed_slippage →
      r.validate_execution_price expected actual "SELL" =
        (false, { r with is_halted := true })) ∧
    (expected - r.settings.max_allowed_slippage ≤ actual →
      r.validate_execution_price expected actual "SELL" = (true, r)) ∧
    (expected + r.settings.max_allowed_slippage < actual →
      r.validate_execution_price expected actual "BUY" =
        (false, { r with is_halted := true })) ∧
    (actual ≤ expected + r.settings.max_allowed_slippage →
      r.validate_execution_price expected actual "BUY" = (true, r)) := by
  refine ⟨fun h => ?_, fun h => ?_, fun h => ?_, fun h => ?_⟩
  · simp [RiskManager.validate_execution_price, h]
  · simp [RiskManager.validate_execution_price, not_lt.mpr h]
  · simp [RiskManager.validate_execution_price, h]
  · simp [RiskManager.validate_execution_price, not_lt.mpr h]

/-- Claim C5 (witness): a concrete SELL fill `0.25` against expectation `0.5`
with allowed slippage `0.01` halts the gate and returns false. -/
theorem validate_execution_price_directional_witness :
    RiskManager.validate_execution_price
      ⟨⟨100, 1/100, 7/10⟩, InventoryManager.init 1000 (-1000) 0, false⟩
      (1/2) (1/4) "SELL" =
      (false, ⟨⟨100, 1/100, 7/10⟩, InventoryManager.init 1000 (-1000) 0, true⟩) :=
  (validate_execution_price_directional
    ⟨⟨100, 1/100, 7/10⟩, InventoryManager.init 1000 (-1000) 0, false⟩
    (1/2) (1/4)).1 (by norm_num)

/-- Claim C5 (counterexample): for a BUY fill, `actual = 0.25` is far below
`expected - max_allowed_slippage = 0.49`, yet the call returns true and the
gate stays un-halted — the claim as stated ignores the side argument. -/
theorem validate_execution_price_buy_side_gap :
    ((1 : ℚ)/4 < 1/2 - 1/100) ∧
    RiskManager.validate_execution_price
      ⟨⟨100, 1/100, 7/10⟩, InventoryManager.init 1000 (-1000) 0, false⟩
      (1/2) (1/4) "BUY" =
      (true, ⟨⟨100, 1/100, 7/10⟩, InventoryManager.init 1000 (-1000) 0, false⟩) := by
  refine ⟨by norm_num, ?_⟩
  norm_num [RiskManager.validate_execution_price]

/-! Risk gate: order-book-imbalance screen (claim C6). -/

/-- Claim C6 (amended): an empty side of the book is accepted with
`(True, "OK")`, and so is zero combined top-3 volume — both are treated as no
signal, not as a rejection — while a top-3 imbalance above `0.8` rejects with
the buy-pressure reason `OBI_HIGH_UPWARD_RISK` and one below `-0.8` with
`OBI_HIGH_DOWNWARD_RISK`. -/
theorem validate_obi_empty_ok_high_obi_rejected (orderbook : Orderbook) :
    (orderbook.bids = [] ∨ orderbook.asks = [] →
      validate_obi orderbook = (true, "OK")) ∧
    (orderbook.bids ≠ [] → orderbook.asks ≠ [] →
      topVolume orderbook.bids + topVolume orderbook.asks = 0 →
      validate_obi orderbook = (true, "OK")) ∧
    (orderbook.bids ≠ [] → orderbook.asks ≠ [] →
      topVolume orderbook.bids + topVolume orderbook.asks ≠ 0 →
      4/5 < (topVolume orderbook.bids - topVolume orderbook.asks) /
            (topVolume orderbook.bids + topVolume orderbook.asks) →
      validate_obi orderbook = (false, "OBI_HIGH_UPWARD_RISK")) ∧
    (orderbook.bids ≠ [] → orderbook.asks ≠ [] →
      topVolume orderbook.bids + topVolume orderbook.asks ≠ 0 →
      (topVolume orderbook.bids - topVolume orderbook.asks) /
            (topVolume orderbook.bids + topVolume orderbook.asks) < -(4/5) →
      validate_obi orderbook = (false, "OBI_HIGH_DOWNWARD_RISK")) := by
  refine ⟨fun h => ?_, fun h1 h2 h3 => ?_, fun h1 h2 h3 h4 => ?_,
    fun h1 h2 h3 h4 => ?_⟩
  · unfold validate_obi
    rcases h with h | h <;> simp [h]
  · simp only [validate_obi]
    rw [if_neg (by simp [h1, h2]), if_pos h3]
  · simp only [validate_obi]
    rw [if_neg (by simp [h1, h2]), if_neg h3, if_pos h4]
  · simp only [validate_obi]
    rw [if_neg (by simp [h1, h2]), if_neg h3, if_neg (by linarith), if_pos h4]

/-- Claim C6 (witness): a book with no bids is accepted with OK, a two-sided
book whose top-3 volumes are all zero is accepted with OK, a book with top-3
imbalance `0.9 > 0.8` is rejected with the buy-pressure reason, and the mirror
book with imbalance `-0.9 < -0.8` is rejected with the downward reason. -/
theorem validate_obi_empty_ok_high_obi_rejected_witness :
    validate_obi ⟨[], [⟨1/2, 10⟩]⟩ = (true, "OK") ∧
    validate_obi ⟨[⟨1/2, 0⟩], [⟨1/2, 0⟩]⟩ = (true, "OK") ∧
    validate_obi ⟨[⟨1/2, 95⟩], [⟨1/2, 5⟩]⟩ = (false, "OBI_HIGH_UPWARD_RISK") ∧
    validate_obi ⟨[⟨1/2, 5⟩], [⟨1/2, 95⟩]⟩ = (false, "OBI_HIGH_DOWNWARD_RISK") :=
  ⟨(validate_obi_empty_ok_high_obi_rejected ⟨[], [⟨1/2, 10⟩]⟩).1 (Or.inl rfl),
   (validate_obi_empty_ok_high_obi_rejected ⟨[⟨1/2, 0⟩], [⟨1/2, 0⟩]⟩).2.1
     (by simp) (by simp) (by norm_num [topVolume]),
   (validate_obi_empty_ok_high_obi_rejected ⟨[⟨1/2, 95⟩], [⟨1/2, 5⟩]⟩).2.2.1
     (by simp) (by simp) (by norm_num [topVolume]) (by norm_num [topVolume]),
   (validate_obi_empty_ok_high_obi_rejected ⟨[⟨1/2, 5⟩], [⟨1/2, 95⟩]⟩).2.2.2
     (by simp) (by simp) (by norm_num [topVolume]) (by norm_num [topVolume])⟩

/-- Claim C6 (counterexample): an order screened against a book whose bid side
is empty is accepted `(True, "OK")` by `validate_order`, not rejected with an
empty-orderbook reason. -/
theorem validate_order_accepts_empty_book :
    RiskManager.validate_order
      ⟨⟨100, 1/100, 7/10⟩, InventoryManager.init 1000 (-1000) 0, false⟩
      "SELL" 10 ⟨[], [⟨1/2, 5⟩]⟩ = (true, "OK") := by
  norm_num [RiskManager.validate_order, validate_obi, InventoryManager.init,
    InventoryManager.can_quote_no, RiskManager.get_inventory_status,
    Inventory.get_skew]
  decide

/-! Quote engine evaluation helpers. -/

lemma round_to_tick_hundredths (price : ℚ) (k : ℤ)
    (h1 : (k : ℚ) ≤ price * 100) (h2 : price * 100 < k + 1) :
    round_to_tick price (1/100) = (k : ℚ) / 100 := by
  have h := round_to_tick_pow_eq price 2
  have hfl : ⌊price * (10 : ℚ) ^ 2⌋ = k := by
    rw [Int.floor_eq_iff]
    constructor
    · norm_num
      linarith
    · norm_num
      linarith
  rw [show ((1 : ℚ) / (10 : ℚ) ^ 2) = 1 / 100 by norm_num] at h
  rw [h, hfl]
  norm_num

lemma generate_quotes_eval_zeroInv :
    QuoteEngine.generate_quotes
      ⟨⟨100, 1/100, 7/10⟩, InventoryManager.init 1000 (-1000) 0⟩
      "m" (49/100) (51/100) (49/100) (51/100) "y" "n" 2 5 (1/100) (1/200) none =
      (some ⟨"BUY", 12/25, 100, "m", "y"⟩, some ⟨"BUY", 12/25, 100, "m", "n"⟩) := by
  have hrt : round_to_tick (241/500) (1/100) = (12/25 : ℚ) := by
    rw [round_to_tick_hundredths (241/500) 48 (by norm_num) (by norm_num)]
    norm_num
  norm_num [QuoteEngine.generate_quotes, calculate_mid_price, InventoryManager.init,
    InventoryManager.get_quote_size_yes, InventoryManager.get_quote_size_no,
    InventoryManager.can_quote_yes, InventoryManager.can_quote_no,
    Option.getD, max_def, hrt]

lemma generate_quotes_eval_dualInv :
    QuoteEngine.generate_quotes
      ⟨⟨100, 1/100, 7/10⟩, ⟨1000, -1000, 0, ⟨100, 100, 0⟩, 2000, -2000⟩⟩
      "m" (49/100) (51/100) (49/100) (51/100) "y" "n" 2 5 (1/100) (1/200) none =
      (some ⟨"BUY", 12/25, 100, "m", "y"⟩, some ⟨"BUY", 12/25, 100, "m", "n"⟩) := by
  have hrt : round_to_tick (241/500) (1/100) = (12/25 : ℚ) := by
    rw [round_to_tick_hundredths (241/500) 48 (by norm_num) (by norm_num)]
    norm_num
  norm_num [QuoteEngine.generate_quotes, calculate_mid_price,
    InventoryManager.get_quote_size_yes, InventoryManager.get_quote_size_no,
    InventoryManager.can_quote_yes, InventoryManager.can_quote_no,
    Option.getD, max_def, hrt]

/-! Quote engine: no empty-inventory guard (claim C2). -/

/-- Claim C2 (amended): `generate_quotes` returns `(None, None)`
unconditionally only when both computed mid prices are `0` (no valid
two-sided book on either token); the inventory positions never gate the
early exit. -/
theorem generate_quotes_none_when_no_book (e : QuoteEngine) (market_id : String)
    (yes_best_bid yes_best_ask no_best_bid no_best_ask : ℚ)
    (yes_token_id no_token_id : String)
    (spread_cents min_size_shares tick_size volatility_1h : ℚ)
    (user_input_shares : Option ℚ)
    (hy : calculate_mid_price yes_best_bid yes_best_ask = 0)
    (hn : calculate_mid_price no_best_bid no_best_ask = 0) :
    e.generate_quotes market_id yes_best_bid yes_best_ask no_best_bid no_best_ask
      yes_token_id no_token_id spread_cents min_size_shares tick_size volatility_1h
      user_input_shares = (none, none) := by
  simp only [QuoteEngine.generate_quotes]
  rw [if_pos ⟨hy, hn⟩]

/-- Claim C2 (witness): with no valid prices on either book the engine emits
no quote. -/
theorem generate_quotes_none_when_no_book_witness :
    QuoteEngine.generate_quotes
      ⟨⟨100, 1/100, 7/10⟩, InventoryManager.init 1000 (-1000) 0⟩
      "m" 0 0 0 0 "y" "n" 2 5 (1/100) (1/200) none = (none, none) :=
  generate_quotes_none_when_no_book _ "m" 0 0 0 0 "y" "n" 2 5 (1/100) (1/200) none
    (by norm_num [calculate_mid_price]) (by norm_num [calculate_mid_price])

/-- Claim C2 (counterexample): with both positions equal to `0` (so both
`≤ 0`) and a live two-sided book, `generate_quotes` emits two quotes instead
of `(None, None)`. -/
theorem generate_quotes_despite_empty_inventory :
    (InventoryManager.init 1000 (-1000) 0).inventory.yes_position ≤ 0 ∧
    (InventoryManager.init 1000 (-1000) 0).inventory.no_position ≤ 0 ∧
    QuoteEngine.generate_quotes
      ⟨⟨100, 1/100, 7/10⟩, InventoryManager.init 1000 (-1000) 0⟩
      "m" (49/100) (51/100) (49/100) (51/100) "y" "n" 2 5 (1/100) (1/200) none =
      (some ⟨"BUY", 12/25, 100, "m", "y"⟩, some ⟨"BUY", 12/25, 100, "m", "n"⟩) :=
  ⟨by norm_num [InventoryManager.init], by norm_num [InventoryManager.init],
    generate_quotes_eval_zeroInv⟩

/-! Quote engine: no combined-price floor (claim C4). -/

/-- Claim C4 (amended): the engine has no dual-inventory branch and enforces
no combined-sale floor; whenever two quotes are emitted, each price lies
strictly inside `(0.01, 0.99)`, so their sum lies strictly inside
`(0.02, 1.98)` — it is not bounded below by `1.01`. -/
theorem generate_quotes_pair_price_band (e : QuoteEngine) (market_id : String)
    (yes_best_bid yes_best_ask no_best_bid no_best_ask : ℚ)
    (yes_token_id no_token_id : String)
    (spread_cents min_size_shares tick_size volatility_1h : ℚ)
    (user_input_shares : Option ℚ) (q1 q2 : Quote)
    (h : e.generate_quotes market_id yes_best_bid yes_best_ask no_best_bid
      no_best_ask yes_token_id no_token_id spread_cents min_size_shares tick_size
      volatility_1h user_input_shares = (some q1, some q2)) :
    (1/100 < q1.price ∧ q1.price < 99/100) ∧
    (1/100 < q2.price ∧ q2.price < 99/100) ∧
    1/50 < q1.price + q2.price ∧ q1.price + q2.price < 99/50 := by
  simp only [QuoteEngine.generate_quotes] at h
  split at h
  · exact absurd h (by simp)
  · rw [Prod.mk.injEq] at h
    obtain ⟨h1, h2⟩ := h
    rw [Option.ite_none_right_eq_some, Option.some.injEq] at h1 h2
    obtain ⟨hc1, hx1⟩ := h1
    obtain ⟨hc2, hx2⟩ := h2
    subst hx1
    subst hx2
    obtain ⟨-, -, hb1, hb2⟩ := hc1
    obtain ⟨-, -, hb3, hb4⟩ := hc2
    dsimp only
    exact ⟨⟨hb1, hb2⟩, ⟨hb3, hb4⟩, by linarith, by linarith⟩

/-- Claim C4 (witness): a both-sides-emitted run realizes the price band, the
concrete prices being `0.48` each. -/
theorem generate_quotes_pair_price_band_witness :
    ((1 : ℚ)/100 < 12/25 ∧ (12/25 : ℚ) < 99/100) ∧
    ((1 : ℚ)/100 < 12/25 ∧ (12/25 : ℚ) < 99/100) ∧
    (1 : ℚ)/50 < 12/25 + 12/25 ∧ (12 : ℚ)/25 + 12/25 < 99/50 :=
  generate_quotes_pair_price_band
    ⟨⟨100, 1/100, 7/10⟩, ⟨1000, -1000, 0, ⟨100, 100, 0⟩, 2000, -2000⟩⟩
    "m" (49/100) (51/100) (49/100) (51/100) "y" "n" 2 5 (1/100) (1/200) none
    ⟨"BUY", 12/25, 100, "m", "y"⟩ ⟨"BUY", 12/25, 100, "m", "n"⟩
    generate_quotes_eval_dualInv

/-- Claim C4 (counterexample): with both positions held (`100` YES and `100`
NO) and symmetric mid `0.5` books, the two emitted prices are `0.48` each and
sum to `0.96 < 1.01`, refuting the combined-price floor. -/
theorem generate_quotes_pair_sum_below_target :
    0 < ((⟨1000, -1000, 0, ⟨100, 100, 0⟩, 2000, -2000⟩ :
      InventoryManager)).inventory.yes_position ∧
    0 < ((⟨1000, -1000, 0, ⟨100, 100, 0⟩, 2000, -2000⟩ :
      InventoryManager)).inventory.no_position ∧
    QuoteEngine.generate_quotes
      ⟨⟨100, 1/100, 7/10⟩, ⟨1000, -1000, 0, ⟨100, 100, 0⟩, 2000, -2000⟩⟩
      "m" (49/100) (51/100) (49/100) (51/100) "y" "n" 2 5 (1/100) (1/200) none =
      (some ⟨"BUY", 12/25, 100, "m", "y"⟩, some ⟨"BUY", 12/25, 100, "m", "n"⟩) ∧
    (12 : ℚ)/25 + 12/25 < 101/100 :=
  ⟨by norm_num, by norm_num, generate_quotes_eval_dualInv, by norm_num⟩

/-! Quote engine: every emitted quote is a BUY inside the unit band
(claim C10). -/

/-- Claim C10 (confirmed): every quote that `generate_quotes` actually emits,
on either side, has side `"BUY"` and a price strictly between `0.01` and
`0.99`. -/
theorem generate_quotes_only_buy_in_unit_band (e : QuoteEngine) (market_id : String)
    (yes_best_bid yes_best_ask no_best_bid no_best_ask : ℚ)
    (yes_token_id no_token_id : String)
    (spread_cents min_size_shares tick_size volatility_1h : ℚ)
    (user_input_shares : Option ℚ) (q : Quote) :
    ((e.generate_quotes market_id yes_best_bid yes_best_ask no_best_bid
      no_best_ask yes_token_id no_token_id spread_cents min_size_shares tick_size
      volatility_1h user_input_shares).1 = some q →
      q.side = "BUY" ∧ 1/100 < q.price ∧ q.price < 99/100) ∧
    ((e.generate_quotes market_id yes_best_bid yes_best_ask no_best_bid
      no_best_ask yes_token_id no_token_id spread_cents min_size_shares tick_size
      volatility_1h user_input_shares).2 = some q →
      q.side = "BUY" ∧ 1/100 < q.price ∧ q.price < 99/100) := by
  constructor
  · intro h
    simp only [QuoteEngine.generate_quotes] at h
    split at h
    · simp at h
    · dsimp only at h
      rw [Option.ite_none_right_eq_some, Option.some.injEq] at h
      obtain ⟨hc, hx⟩ := h
      subst hx
      exact ⟨rfl, hc.2.2.1, hc.2.2.2⟩
  · intro h
    simp only [QuoteEngine.generate_quotes] at h
    split at h
    · simp at h
    · dsimp only at h
      rw [Option.ite_none_right_eq_some, Option.some.injEq] at h
      obtain ⟨hc, hx⟩ := h
      subst hx
      exact ⟨rfl, hc.2.2.1, hc.2.2.2⟩

/-- Claim C10 (witness): a concretely emitted YES-side quote is a BUY priced
at `0.48`, inside the band. -/
theorem generate_quotes_only_buy_in_unit_band_witness :
    (Quote.mk "BUY" (12/25) 100 "m" "y").side = "BUY" ∧
    (1 : ℚ)/100 < (Quote.mk "BUY" (12/25) 100 "m" "y").price ∧
    (Quote.mk "BUY" (12/25) 100 "m" "y").price < 99/100 :=
  (generate_quotes_only_buy_in_unit_band
    ⟨⟨100, 1/100, 7/10⟩, InventoryManager.init 1000 (-1000) 0⟩
    "m" (49/100) (51/100) (49/100) (51/100) "y" "n" 2 5 (1/100) (1/200) none
    ⟨"BUY", 12/25, 100, "m", "y"⟩).1
    (by rw [generate_quotes_eval_zeroInv])

end Popopo
